import Mathlib

/-!
Verification of the Document Validator repository.

The embedding follows the Python sources:
- models.py: ExtractedData, ValidationResult, DocumentRequest
- validation.py: DocumentValidator (the four rules, validate_all, vessel loading)
- main.py: startup initialization and the validate_document endpoint
- ai_extractor.py: AIExtractedData (the shape of the extraction output)

Python dates are embedded as year/month/day triples with the lexicographic
order that datetime.date comparison implements; Optional fields become
Option; raised exceptions become Except values.
-/

namespace DocValidator

/-- Calendar date, as Python datetime.date: compared lexicographically. -/
structure Date where
  year : Nat
  month : Nat
  day : Nat
deriving DecidableEq, Repr

/-- Python date comparison a < b (lexicographic on year, month, day). -/
def dateLt (a b : Date) : Bool :=
  (a.year < b.year) ||
  (a.year == b.year && (a.month < b.month ||
    (a.month == b.month && a.day < b.day)))

/-- models.py ValidationResult: rule name, PASS/FAIL status, message. -/
structure ValidationResult where
  rule : String
  status : String
  message : String
deriving DecidableEq, Repr

/-- models.py ExtractedData: all five fields independently optional. -/
structure ExtractedData where
  policy_number : Option String
  vessel_name : Option String
  policy_start_date : Option Date
  policy_end_date : Option Date
  insured_value : Option Int
deriving DecidableEq, Repr

/-- validation.py DocumentValidator.validate_date_consistency. -/
def validate_date_consistency (start_date end_date : Option Date) :
    ValidationResult :=
  let rule := "Date Consistency"
  match start_date, end_date with
  | none, _ =>
    { rule := rule, status := "FAIL",
      message := "Both start and end dates must be present for validation." }
  | _, none =>
    { rule := rule, status := "FAIL",
      message := "Both start and end dates must be present for validation." }
  | some s, some e =>
    if dateLt s e then
      { rule := rule, status := "PASS",
        message := "Policy end date is after start date." }
    else
      { rule := rule, status := "FAIL",
        message := "Policy end date cannot be before the start date." }

/-- validation.py DocumentValidator.validate_insured_value. -/
def validate_insured_value (insured_value : Option Int) : ValidationResult :=
  let rule := "Value Check"
  match insured_value with
  | none =>
    { rule := rule, status := "FAIL", message := "Insured value is missing." }
  | some v =>
    if v > 0 then
      { rule := rule, status := "PASS", message := "Insured value is valid." }
    else
      { rule := rule, status := "FAIL",
        message := "Insured value must be a positive number." }

/-- Python str.strip(): drop whitespace from both ends. Embedded as an
explicit list computation so that it evaluates inside the kernel. -/
def pyStrip (s : String) : String :=
  String.mk
    (((s.data.dropWhile Char.isWhitespace).reverse.dropWhile
      Char.isWhitespace).reverse)

/-- validation.py DocumentValidator.validate_vessel_name. The validator
holds valid_vessels, loaded at construction; here it is a parameter.
Note the membership test uses the original, untrimmed name; trimming is
only used for the emptiness check. -/
def validate_vessel_name (valid_vessels : List String)
    (vessel_name : Option String) : ValidationResult :=
  let rule := "Vessel Name Match"
  match vessel_name with
  | none =>
    { rule := rule, status := "FAIL", message := "Vessel name is missing." }
  | some name =>
    if pyStrip name == "" then
      { rule := rule, status := "FAIL", message := "Vessel name is missing." }
    else if valid_vessels.contains name then
      { rule := rule, status := "PASS",
        message := "Vessel " ++ name ++ " is on the approved list." }
    else
      { rule := rule, status := "FAIL",
        message := "Vessel " ++ name ++ " is not on the approved list." }

/-- validation.py DocumentValidator.validate_policy_number. -/
def validate_policy_number (policy_number : Option String) : ValidationResult :=
  let rule := "Completeness Check"
  match policy_number with
  | none =>
    { rule := rule, status := "FAIL", message := "Policy number is missing." }
  | some p =>
    if pyStrip p == "" then
      { rule := rule, status := "FAIL", message := "Policy number is missing." }
    else
      { rule := rule, status := "PASS", message := "Policy number is present." }

/-- validation.py DocumentValidator.validate_all: runs the four rules in
order, appending each result to the list. -/
def validate_all (valid_vessels : List String)
    (extracted_data : ExtractedData) : List ValidationResult :=
  let results : List ValidationResult := []
  let results := results ++
    [validate_date_consistency extracted_data.policy_start_date
      extracted_data.policy_end_date]
  let results := results ++
    [validate_insured_value extracted_data.insured_value]
  let results := results ++
    [validate_vessel_name valid_vessels extracted_data.vessel_name]
  let results := results ++
    [validate_policy_number extracted_data.policy_number]
  results

/-- A JSON value, as produced by json.load in validation.py. -/
inductive Json where
  | null
  | bool (b : Bool)
  | num (n : Int)
  | str (s : String)
  | arr (elems : List Json)
  | obj (fields : List (String × Json))

/-- The possible states of the vessels file seen by _load_valid_vessels:
missing, present but not valid JSON, or parsed to a JSON value. -/
inductive VesselFile where
  | missing
  | unparsable (msg : String)
  | parsed (j : Json)

/-- The exceptions _load_valid_vessels can raise. In Python,
json.JSONDecodeError is a subclass of ValueError; FileNotFoundError is not. -/
inductive VesselLoadError where
  | fileNotFound (path : String)
  | jsonDecodeError (msg : String)
  | valueError (msg : String)
deriving DecidableEq, Repr

/-- Which exception classes the except ValueError clause in main.py catches:
ValueError itself and its subclass json.JSONDecodeError, not
FileNotFoundError. -/
def VesselLoadError.isValueError : VesselLoadError → Bool
  | .fileNotFound _ => false
  | .jsonDecodeError _ => true
  | .valueError _ => true

/-- validation.py DocumentValidator._load_valid_vessels: open and parse the
file, require a JSON array, and return its elements; element types are not
inspected. FileNotFoundError is re-raised with the path in the message and
JSONDecodeError is re-raised with a prefixed message. -/
def load_valid_vessels (path : String) (f : VesselFile) :
    Except VesselLoadError (List Json) :=
  match f with
  | .missing =>
    .error (.fileNotFound ("Valid vessels file not found at: " ++ path))
  | .unparsable msg =>
    .error (.jsonDecodeError ("Invalid JSON in vessels file: " ++ msg))
  | .parsed j =>
    match j with
    | .arr elems => .ok elems
    | _ => .error (.valueError "Valid vessels file must contain a JSON array")

/-- The module-level service state built by main.py lines 27-39. -/
structure AppState where
  running : Bool
  ai_extractor_available : Bool
  document_validator : Option (List Json)

/-- main.py lines 27-39: construct AIExtractor (raises ValueError when the
API key is absent) then DocumentValidator (init runs _load_valid_vessels).
An except ValueError arm sets both services to None; an except
FileNotFoundError arm sets only the validator to None. Either way the
module finishes loading and the app serves requests. -/
def startupInit (apiKeyPresent : Bool)
    (vesselLoad : Except VesselLoadError (List Json)) : AppState :=
  if apiKeyPresent then
    match vesselLoad with
    | .ok vs =>
      { running := true, ai_extractor_available := true,
        document_validator := some vs }
    | .error e =>
      if e.isValueError then
        { running := true, ai_extractor_available := false,
          document_validator := none }
      else
        { running := true, ai_extractor_available := true,
          document_validator := none }
  else
    { running := true, ai_extractor_available := false,
      document_validator := none }

/-- main.py lines 44-51: the health endpoint answers in every app state. -/
def rootEndpoint (_app : AppState) : List (String × String) :=
  [("service", "Mini Insurance Document Validator"),
   ("status", "running"),
   ("version", "1.0.0")]

/-- ai_extractor.py AIExtractedData: what the model call returns; dates are
ISO strings here, not yet calendar dates. -/
structure AIExtractedData where
  policy_number : Option String
  vessel_name : Option String
  policy_start_date : Option String
  policy_end_date : Option String
  insured_value : Option Int
deriving DecidableEq, Repr

def isLeapYear (y : Nat) : Bool :=
  (y % 4 == 0 && y % 100 != 0) || y % 400 == 0

def daysInMonth (y m : Nat) : Nat :=
  if m == 2 then (if isLeapYear y then 29 else 28)
  else if m == 4 || m == 6 || m == 9 || m == 11 then 30
  else 31

/-- Split a character list on a separator character; groups between
separators, as str.split produces. -/
def splitOnChar (sep : Char) : List Char → List (List Char)
  | [] => [[]]
  | c :: cs =>
    let r := splitOnChar sep cs
    if c == sep then [] :: r
    else
      match r with
      | [] => [[c]]
      | g :: gs => (c :: g) :: gs

/-- Read a non-empty all-digit character group as a number. -/
def digitGroupToNat (l : List Char) : Option Nat :=
  if l.isEmpty then none
  else if l.all Char.isDigit then
    some (l.foldl (fun n c => n * 10 + (c.toNat - 48)) 0)
  else none

/-- Python datetime.date.fromisoformat on the YYYY-MM-DD form: three
dash-separated digit groups of widths 4, 2, 2 naming a real calendar date;
anything else raises ValueError, embedded as none. -/
def parseIsoDate (s : String) : Option Date :=
  match splitOnChar '-' s.data with
  | [ys, ms, ds] =>
    if ys.length == 4 && ms.length == 2 && ds.length == 2 then
      match digitGroupToNat ys, digitGroupToNat ms, digitGroupToNat ds with
      | some y, some m, some d =>
        if 1 ≤ m && m ≤ 12 && 1 ≤ d && d ≤ daysInMonth y m then
          some { year := y, month := m, day := d }
        else none
      | _, _, _ => none
    else none
  | _ => none

/-- main.py lines 95-108 for one date field: a falsy value (None or the
empty string) is skipped, otherwise fromisoformat is tried and a parse
failure is swallowed, leaving the field None. -/
def parseDateField (f : Option String) : Option Date :=
  match f with
  | none => none
  | some s => if s == "" then none else parseIsoDate s

/-- main.py lines 95-116: build the ExtractedData record from the AI
output; the non-date fields are copied through unchanged. -/
def buildExtractedData (ai : AIExtractedData) : ExtractedData :=
  { policy_number := ai.policy_number
    vessel_name := ai.vessel_name
    policy_start_date := parseDateField ai.policy_start_date
    policy_end_date := parseDateField ai.policy_end_date
    insured_value := ai.insured_value }

/-- models.py DocumentRequest: pydantic accepts document_text exactly when
its length is at least 1 (min_length=1); no trimming, no content check. -/
def documentRequestAccepts (document_text : String) : Bool :=
  1 ≤ document_text.length

/-- Outcome of the validate endpoint: an HTTPException or the response. -/
inductive HandlerResult where
  | httpError (status_code : Nat) (detail : String)
  | response (extracted_data : ExtractedData)
      (validation_results : List ValidationResult)
deriving DecidableEq, Repr

/-- main.py validate_document: 503 when either service is missing, 500 when
extraction raises, otherwise build the record and run all the rules. The
extraction call is abstracted as a function from the document text to an
AI record or an error message. -/
def validate_document
    (ai_extractor : Option (String → Except String AIExtractedData))
    (document_validator : Option (List String))
    (document_text : String) : HandlerResult :=
  match ai_extractor with
  | none =>
    .httpError 503 "AI service not available. Please configure GEMINI_API_KEY."
  | some extract =>
    match document_validator with
    | none =>
      .httpError 503
        "Validation service not available. Check valid_vessels.json file."
    | some valid_vessels =>
      match extract document_text with
      | .error e => .httpError 500 ("AI extraction failed: " ++ e)
      | .ok ai_extracted =>
        let extracted_data := buildExtractedData ai_extracted
        .response extracted_data (validate_all valid_vessels extracted_data)

/-! Helper lemmas: each rule function labels its result with its own rule
name on every branch. -/

theorem validate_date_consistency_rule (s e : Option Date) :
    (validate_date_consistency s e).rule = "Date Consistency" := by
  cases s <;> cases e <;> simp only [validate_date_consistency]
  all_goals first
    | rfl
    | (split <;> rfl)

theorem validate_insured_value_rule (v : Option Int) :
    (validate_insured_value v).rule = "Value Check" := by
  cases v <;> simp only [validate_insured_value]
  all_goals first
    | rfl
    | (split <;> rfl)

theorem validate_vessel_name_rule (vs : List String) (n : Option String) :
    (validate_vessel_name vs n).rule = "Vessel Name Match" := by
  cases n <;> simp only [validate_vessel_name]
  all_goals first
    | rfl
    | (split <;> first | rfl | (split <;> rfl))

theorem validate_policy_number_rule (p : Option String) :
    (validate_policy_number p).rule = "Completeness Check" := by
  cases p <;> simp only [validate_policy_number]
  all_goals first
    | rfl
    | (split <;> rfl)

/-- C1: for every record, validate_all returns exactly four results, the
i-th being the corresponding rule function applied to only that rule's
fields, with rule names Date Consistency, Value Check, Vessel Name Match,
Completeness Check in that fixed order. -/
theorem C1_validate_all_four_rules (vs : List String) (d : ExtractedData) :
    validate_all vs d =
      [validate_date_consistency d.policy_start_date d.policy_end_date,
       validate_insured_value d.insured_value,
       validate_vessel_name vs d.vessel_name,
       validate_policy_number d.policy_number] ∧
    (validate_all vs d).length = 4 ∧
    (validate_all vs d).map ValidationResult.rule =
      ["Date Consistency", "Value Check", "Vessel Name Match",
       "Completeness Check"] := by
  refine ⟨rfl, rfl, ?_⟩
  have h : validate_all vs d =
      [validate_date_consistency d.policy_start_date d.policy_end_date,
       validate_insured_value d.insured_value,
       validate_vessel_name vs d.vessel_name,
       validate_policy_number d.policy_number] := rfl
  rw [h]
  simp [validate_date_consistency_rule, validate_insured_value_rule,
    validate_vessel_name_rule, validate_policy_number_rule]

/-- C2: Date Consistency returns PASS exactly when both dates are present
and the end date is strictly later than the start date; it returns FAIL in
every other case, in particular when the dates are equal (zero-duration
coverage) and when either date is absent. -/
theorem C2_date_consistency_status (s e : Option Date) :
    ((validate_date_consistency s e).status = "PASS" ↔
      ∃ a b, s = some a ∧ e = some b ∧ dateLt a b = true) ∧
    ((validate_date_consistency s e).status = "FAIL" ↔
      ¬ ∃ a b, s = some a ∧ e = some b ∧ dateLt a b = true) ∧
    (∀ a : Date, (validate_date_consistency (some a) (some a)).status =
      "FAIL") := by
  have hirr : ∀ a : Date, dateLt a a = false := by
    intro a
    simp [dateLt]
  refine ⟨?_, ?_, ?_⟩
  · cases s with
    | none => simp [validate_date_consistency]
    | some a =>
      cases e with
      | none => simp [validate_date_consistency]
      | some b =>
        by_cases h : dateLt a b = true
        · have hs : (validate_date_consistency (some a) (some b)).status =
              "PASS" := by
            simp [validate_date_consistency, h]
          rw [hs]
          simp [h]
        · have hs : (validate_date_consistency (some a) (some b)).status =
              "FAIL" := by
            simp [validate_date_consistency, h]
          rw [hs]
          simp [h]
  · cases s with
    | none => simp [validate_date_consistency]
    | some a =>
      cases e with
      | none => simp [validate_date_consistency]
      | some b =>
        by_cases h : dateLt a b = true
        · have hs : (validate_date_consistency (some a) (some b)).status =
              "PASS" := by
            simp [validate_date_consistency, h]
          rw [hs]
          simp [h]
        · have hs : (validate_date_consistency (some a) (some b)).status =
              "FAIL" := by
            simp [validate_date_consistency, h]
          rw [hs]
          simp [h]
  · intro a
    simp [validate_date_consistency, hirr a]

/-- C3: Value Check returns PASS exactly when the insured value is present
and strictly positive; zero, negative, and absent values give FAIL. -/
theorem C3_insured_value_status (v : Option Int) :
    ((validate_insured_value v).status = "PASS" ↔
      ∃ n : Int, v = some n ∧ 0 < n) ∧
    ((validate_insured_value v).status = "FAIL" ↔
      ¬ ∃ n : Int, v = some n ∧ 0 < n) := by
  refine ⟨?_, ?_⟩ <;>
  · cases v with
    | none => simp [validate_insured_value]
    | some n =>
      by_cases h : (0 : Int) < n
      · have hs : (validate_insured_value (some n)).status = "PASS" := by
          simp [validate_insured_value, h]
        rw [hs]
        simp [h]
      · have hs : (validate_insured_value (some n)).status = "FAIL" := by
          simp [validate_insured_value, h]
        rw [hs]
        simp [h]

/-- C4: Vessel Name Match returns PASS exactly when the name is present,
does not trim to the empty string, and the original untrimmed name is an
exact member of the approved list; absent names, names trimming to empty,
and names not in the list (including names whose trimmed form is approved
but whose untrimmed form is not listed) give FAIL. -/
theorem C4_vessel_name_status (vs : List String) (n : Option String) :
    ((validate_vessel_name vs n).status = "PASS" ↔
      ∃ s, n = some s ∧ pyStrip s ≠ "" ∧ s ∈ vs) ∧
    ((validate_vessel_name vs n).status = "FAIL" ↔
      ¬ ∃ s, n = some s ∧ pyStrip s ≠ "" ∧ s ∈ vs) := by
  refine ⟨?_, ?_⟩ <;>
  · cases n with
    | none => simp [validate_vessel_name]
    | some name =>
      by_cases ht : pyStrip name = ""
      · have hs : (validate_vessel_name vs (some name)).status = "FAIL" := by
          simp [validate_vessel_name, ht]
        rw [hs]
        simp [ht]
      · by_cases hm : name ∈ vs
        · have hs : (validate_vessel_name vs (some name)).status =
              "PASS" := by
            simp [validate_vessel_name, ht, hm]
          rw [hs]
          simp [ht, hm]
        · have hs : (validate_vessel_name vs (some name)).status =
              "FAIL" := by
            simp [validate_vessel_name, ht, hm]
          rw [hs]
          simp [ht, hm]

/-- C5: Completeness Check returns PASS exactly when the policy number is
present and does not trim to the empty string; absent, empty, and
whitespace-only policy numbers give FAIL. -/
theorem C5_policy_number_status (p : Option String) :
    ((validate_policy_number p).status = "PASS" ↔
      ∃ s, p = some s ∧ pyStrip s ≠ "") ∧
    ((validate_policy_number p).status = "FAIL" ↔
      ¬ ∃ s, p = some s ∧ pyStrip s ≠ "") := by
  refine ⟨?_, ?_⟩ <;>
  · cases p with
    | none => simp [validate_policy_number]
    | some q =>
      by_cases ht : pyStrip q = ""
      · have hs : (validate_policy_number (some q)).status = "FAIL" := by
          simp [validate_policy_number, ht]
        rw [hs]
        simp [ht]
      · have hs : (validate_policy_number (some q)).status = "PASS" := by
          simp [validate_policy_number, ht]
        rw [hs]
        simp [ht]

/-- C6 counterexample: the FAIL for an absent vessel name and the FAIL for
a present vessel name that trims to the empty string carry the identical
message, so the two causes are not distinguishable in the report. -/
theorem C6_counterexample :
    (validate_vessel_name ["MV Neptune"] none).message =
      (validate_vessel_name ["MV Neptune"] (some "   ")).message := by
  decide

/-- C6 amended: both the absent vessel name and a present vessel name that
trims to the empty string yield status FAIL with the same message, namely
the text Vessel name is missing. (a single code branch covers both
causes). -/
theorem C6_amended_same_fail_message (vs : List String) (s : String)
    (h : pyStrip s = "") :
    (validate_vessel_name vs none).status = "FAIL" ∧
    (validate_vessel_name vs none).message = "Vessel name is missing." ∧
    (validate_vessel_name vs (some s)).status = "FAIL" ∧
    (validate_vessel_name vs (some s)).message = "Vessel name is missing." ∧
    (validate_vessel_name vs (some s)).message =
      (validate_vessel_name vs none).message := by
  refine ⟨rfl, rfl, ?_, ?_, ?_⟩ <;> simp [validate_vessel_name, h]

/-- C6 amended, witnessed at the approved list containing MV Neptune and a
whitespace-only vessel name. -/
theorem C6_amended_same_fail_message_witness :
    pyStrip "   " = "" ∧
    ((validate_vessel_name ["MV Neptune"] none).status = "FAIL" ∧
     (validate_vessel_name ["MV Neptune"] none).message =
       "Vessel name is missing." ∧
     (validate_vessel_name ["MV Neptune"] (some "   ")).status = "FAIL" ∧
     (validate_vessel_name ["MV Neptune"] (some "   ")).message =
       "Vessel name is missing." ∧
     (validate_vessel_name ["MV Neptune"] (some "   ")).message =
       (validate_vessel_name ["MV Neptune"] none).message) :=
  ⟨by decide, C6_amended_same_fail_message ["MV Neptune"] "   " (by decide)⟩

/-- C7 counterexample: with the vessels file missing, validator
construction raises, but the startup code in main.py catches
FileNotFoundError, keeps running, leaves the validator unset, and the
health endpoint still answers — a partial service is started, so startup
does not abort entirely. -/
theorem C7_counterexample :
    (startupInit true
      (Except.error (VesselLoadError.fileNotFound
        "Valid vessels file not found at: provided_assets/valid_vessels.json"))).running
      = true ∧
    (startupInit true
      (Except.error (VesselLoadError.fileNotFound
        "Valid vessels file not found at: provided_assets/valid_vessels.json"))).document_validator
      = none ∧
    rootEndpoint (startupInit true
      (Except.error (VesselLoadError.fileNotFound
        "Valid vessels file not found at: provided_assets/valid_vessels.json"))) =
      [("service", "Mini Insurance Document Validator"),
       ("status", "running"),
       ("version", "1.0.0")] :=
  ⟨rfl, rfl, rfl⟩

/-- C7 amended: the loader does fail fast at construction when the source
is missing or malformed, but startup catches the exception and the service
still starts with the validator disabled; the validate endpoint then
answers 503 instead of validating. -/
theorem C7_amended_startup_degrades (path msg t : String)
    (e : VesselLoadError)
    (extract : String → Except String AIExtractedData) :
    load_valid_vessels path VesselFile.missing =
      Except.error (VesselLoadError.fileNotFound
        ("Valid vessels file not found at: " ++ path)) ∧
    load_valid_vessels path (VesselFile.unparsable msg) =
      Except.error (VesselLoadError.jsonDecodeError
        ("Invalid JSON in vessels file: " ++ msg)) ∧
    (startupInit true (Except.error e)).running = true ∧
    (startupInit true (Except.error e)).document_validator = none ∧
    validate_document (some extract) none t =
      HandlerResult.httpError 503
        "Validation service not available. Check valid_vessels.json file." := by
  refine ⟨rfl, rfl, ?_, ?_, rfl⟩ <;> cases e <;> rfl

/-- C8: when an extracted date string fails to parse as an ISO calendar
date, that date field becomes None in the record handed to validation; the
non-date fields pass through unchanged, the other date field is converted
independently, and all four rules still run on the resulting record. -/
theorem C8_bad_date_treated_absent (vs : List String)
    (ai : AIExtractedData) (s : String)
    (hs : ai.policy_start_date = some s)
    (hp : parseIsoDate s = none) :
    (buildExtractedData ai).policy_start_date = none ∧
    (buildExtractedData ai).policy_end_date =
      parseDateField ai.policy_end_date ∧
    (buildExtractedData ai).policy_number = ai.policy_number ∧
    (buildExtractedData ai).vessel_name = ai.vessel_name ∧
    (buildExtractedData ai).insured_value = ai.insured_value ∧
    (validate_all vs (buildExtractedData ai)).length = 4 := by
  refine ⟨?_, rfl, rfl, rfl, rfl, rfl⟩
  simp [buildExtractedData, parseDateField, hs]
  intro h
  exact hp

/-- C8 witness record: extraction output with a malformed start date. -/
def sampleAI : AIExtractedData :=
  { policy_number := some "HM-2025-10-A4B"
    vessel_name := some "MV Neptune"
    policy_start_date := some "not-a-date"
    policy_end_date := some "2025-12-31"
    insured_value := some 5000000 }

/-- C8 witnessed on a record whose start date string does not parse. -/
theorem C8_bad_date_treated_absent_witness :
    sampleAI.policy_start_date = some "not-a-date" ∧
    parseIsoDate "not-a-date" = none ∧
    ((buildExtractedData sampleAI).policy_start_date = none ∧
     (buildExtractedData sampleAI).policy_end_date =
       parseDateField sampleAI.policy_end_date ∧
     (buildExtractedData sampleAI).policy_number = sampleAI.policy_number ∧
     (buildExtractedData sampleAI).vessel_name = sampleAI.vessel_name ∧
     (buildExtractedData sampleAI).insured_value = sampleAI.insured_value ∧
     (validate_all ["MV Neptune"] (buildExtractedData sampleAI)).length = 4) :=
  ⟨rfl, by decide,
   C8_bad_date_treated_absent ["MV Neptune"] sampleAI "not-a-date" rfl
     (by decide)⟩

/-- C9 counterexample: a JSON array whose elements are not strings is
returned normally by the loader, so the loader does not guarantee a
collection of strings. -/
theorem C9_counterexample :
    load_valid_vessels "provided_assets/valid_vessels.json"
      (VesselFile.parsed (Json.arr [Json.num 1])) =
      Except.ok [Json.num 1] :=
  rfl

/-- C9 amended: the loader returns the elements of the parsed JSON array
without inspecting their types, and otherwise fails with an error that
distinguishes a missing file, invalid JSON, and non-array content; it never
returns normally unless the file parsed to a JSON array. -/
theorem C9_amended_loader_cases (path : String) (f : VesselFile) :
    (∃ l, f = VesselFile.parsed (Json.arr l) ∧
      load_valid_vessels path f = Except.ok l) ∨
    (f = VesselFile.missing ∧ load_valid_vessels path f =
      Except.error (VesselLoadError.fileNotFound
        ("Valid vessels file not found at: " ++ path))) ∨
    (∃ msg, f = VesselFile.unparsable msg ∧ load_valid_vessels path f =
      Except.error (VesselLoadError.jsonDecodeError
        ("Invalid JSON in vessels file: " ++ msg))) ∨
    (∃ j, f = VesselFile.parsed j ∧ load_valid_vessels path f =
      Except.error (VesselLoadError.valueError
        "Valid vessels file must contain a JSON array")) := by
  cases f with
  | missing => exact Or.inr (Or.inl ⟨rfl, rfl⟩)
  | unparsable msg => exact Or.inr (Or.inr (Or.inl ⟨msg, rfl, rfl⟩))
  | parsed j =>
    cases j with
    | arr elems => exact Or.inl ⟨elems, rfl, rfl⟩
    | null => exact Or.inr (Or.inr (Or.inr ⟨Json.null, rfl, rfl⟩))
    | bool b => exact Or.inr (Or.inr (Or.inr ⟨Json.bool b, rfl, rfl⟩))
    | num n => exact Or.inr (Or.inr (Or.inr ⟨Json.num n, rfl, rfl⟩))
    | str s => exact Or.inr (Or.inr (Or.inr ⟨Json.str s, rfl, rfl⟩))
    | obj fields => exact Or.inr (Or.inr (Or.inr ⟨Json.obj fields, rfl, rfl⟩))

/-- C10: the request model accepts exactly the strings of length at least
one, whitespace-only strings included, rejecting only the empty string;
and the handler consults the extraction stage only at the original,
untransformed document text (no trimming or content check before the core
runs). -/
theorem C10_request_acceptance (s : String) (vs : List String)
    (f g : String → Except String AIExtractedData) (h : f s = g s) :
    (documentRequestAccepts s = true ↔ 1 ≤ s.length) ∧
    (documentRequestAccepts s = false ↔ s = "") ∧
    documentRequestAccepts " " = true ∧
    validate_document (some f) (some vs) s =
      validate_document (some g) (some vs) s := by
  refine ⟨?_, ?_, by decide, ?_⟩
  · simp [documentRequestAccepts]
  · constructor
    · intro hf
      have h1 : ¬ (1 ≤ s.length) := by
        simpa [documentRequestAccepts] using hf
      have h0 : s.data.length = 0 := by
        have h2 : s.length = 0 := by omega
        exact h2
      have hd : s.data = [] := List.eq_nil_of_length_eq_zero h0
      apply String.ext
      rw [hd]
    · intro hE
      subst hE
      rfl
  · simp only [validate_document]
    rw [h]

/-- C10 witnessed at a whitespace-only document text and one concrete
extraction function. -/
theorem C10_request_acceptance_witness :
    (fun _ : String =>
      (Except.error "boom" : Except String AIExtractedData)) " " =
      (fun _ : String =>
        (Except.error "boom" : Except String AIExtractedData)) " " ∧
    ((documentRequestAccepts " " = true ↔ 1 ≤ (" " : String).length) ∧
     (documentRequestAccepts " " = false ↔ (" " : String) = "") ∧
     documentRequestAccepts " " = true ∧
     validate_document
       (some (fun _ : String =>
         (Except.error "boom" : Except String AIExtractedData)))
       (some ["MV Neptune"]) " " =
     validate_document
       (some (fun _ : String =>
         (Except.error "boom" : Except String AIExtractedData)))
       (some ["MV Neptune"]) " ") :=
  ⟨rfl, C10_request_acceptance " " ["MV Neptune"] _ _ rfl⟩

end DocValidator
